import Mathlib

/-
Verification of the Stabiliser video-stabilisation pipeline
(main.py, stabiliser.py, utils.py) against its specification.

Numeric values (numpy float32/float64 scalars) are modelled as exact
rationals, except for the trigonometric round trip of the affine
reconstruction, which is modelled over the reals. External library calls
(cv2 detectors and solvers, numpy arctan2) are modelled as oracle
parameters when their concrete values are irrelevant to a claim, and
from their documented interface contracts when a claim depends on them.
-/

deriving instance DecidableEq for Except

/-! ### Data model -/

/-- A raw inter-frame motion estimate: translation and rotation angle.
`stabiliser.py` stores these as the rows `[dx, dy, da]` of `transforms`. -/
structure MotionEstimate where
  dx : ℚ
  dy : ℚ
  da : ℚ
  deriving DecidableEq, Repr

/-- A 2-D point, as a row of a cv2 point array. -/
abbrev Pt : Type := ℚ × ℚ

/-- Opaque handle for a grayscale frame; the external detectors, trackers
and solvers are oracles over such handles. -/
abbrev Gray : Type := Nat

/-- A cv2 KeyPoint: only its `pt` coordinate pair is used by the code. -/
structure KeyPoint where
  pt : ℚ × ℚ
  deriving DecidableEq, Repr

/-- A cv2 DMatch as consumed by the code: query index, train index and
descriptor distance. -/
structure DMatch where
  queryIdx : Nat
  trainIdx : Nat
  distance : ℚ
  deriving DecidableEq, Repr

/-- A 2x3 matrix over the rationals, modelling the numpy arrays returned
by `cv2.estimateRigidTransform` and `cv2.findHomography` (only the six
entries read by the code are modelled; for a homography the third row is
never read). -/
structure Mat2x3q where
  m00 : ℚ
  m01 : ℚ
  m02 : ℚ
  m10 : ℚ
  m11 : ℚ
  m12 : ℚ
  deriving DecidableEq, Repr

/-- The Python exceptions the modelled code can raise. -/
inductive PyError where
  | notImplementedError
  | attributeError
  | assertionError
  | typeError
  | statisticsError
  | valueError
  deriving DecidableEq, Repr

/-- The `utils.Modes` enumeration (tracking mode). -/
inductive Modes where
  | OPTICAL_FLOW
  | HOMOGRAPHY
  deriving DecidableEq, Repr

/-- The `utils.Features` enumeration.  Note that it has no `KAZE` member,
although `stabiliser.get_features` mentions `Features.KAZE` in one branch. -/
inductive Features where
  | GOOD_FEATURES
  | ORB
  | SIFT
  | SURF
  | AKAZE
  | FAST
  | MSER
  | BRISK
  deriving DecidableEq, Repr

/-! ### TrajectoryBuilder: smoothing (stabiliser.py lines 31-49) -/

/-- Python list slice `xs[r : -r]` as used in `moving_average`
(`curve_smoothed[self.radius:-self.radius]`): for `r = 0` the stop index
`-0` is `0`, so the slice is empty. -/
def npSliceNegEnd (r : Nat) (xs : List ℚ) : List ℚ :=
  if r = 0 then [] else (xs.take (xs.length - r)).drop r

/-- `np.lib.pad(curve, (r, r), "edge")`: replicate the first and the last
entry `r` times at the corresponding end. -/
def edgePad (r : Nat) (xs : List ℚ) : List ℚ :=
  List.replicate r (xs.headD 0) ++ xs ++ List.replicate r (xs.getLastD 0)

/-- Full discrete convolution `np.convolve(a, f, mode="full")`:
entry `k` is the sum of `a[k-j] * f[j]` over the indices in range. -/
def convFull (a f : List ℚ) : List ℚ :=
  (List.range (a.length + f.length - 1)).map fun k =>
    ((List.range f.length).map fun j =>
      if j ≤ k then a.getD (k - j) 0 * f.getD j 0 else 0).sum

/-- `np.convolve(a, f, mode="same")`: the central `max |a| |f|` entries of
the full convolution, starting at offset `(min |a| |f| - 1) / 2`. -/
def convSame (a f : List ℚ) : List ℚ :=
  ((convFull a f).drop ((min a.length f.length - 1) / 2)).take (max a.length f.length)

/-- `Stabiliser.moving_average` (stabiliser.py lines 31-42). -/
def moving_average (radius : Nat) (curve : List ℚ) : List ℚ :=
  let window_size := 2 * radius + 1
  let f := List.replicate window_size ((1 : ℚ) / window_size)
  let curve_pad := edgePad radius curve
  let curve_smoothed := convSame curve_pad f
  npSliceNegEnd radius curve_smoothed

/-- Pointwise zip of the three smoothed channels back into rows, modelling
the column assignments `smoothed_trajectory[:, i] = ...`. -/
def zipME : List ℚ → List ℚ → List ℚ → List MotionEstimate
  | x :: xs, y :: ys, z :: zs => ⟨x, y, z⟩ :: zipME xs ys zs
  | _, _, _ => []

/-- `Stabiliser.smooth` (stabiliser.py lines 44-49): smooth each of the
three channels with `moving_average`; assigning a channel whose length
differs from the trajectory length back into the numpy column raises a
ValueError, modelled as `none`. -/
def smooth (radius : Nat) (trajectory : List MotionEstimate) :
    Option (List MotionEstimate) :=
  let c0 := moving_average radius (trajectory.map MotionEstimate.dx)
  let c1 := moving_average radius (trajectory.map MotionEstimate.dy)
  let c2 := moving_average radius (trajectory.map MotionEstimate.da)
  if c0.length = trajectory.length ∧ c1.length = trajectory.length ∧
      c2.length = trajectory.length then
    some (zipME c0 c1 c2)
  else
    none

/-! ### TrajectoryBuilder: accumulation (stabiliser.py line 216) -/

/-- Componentwise sum of two motion estimates. -/
def addME (a b : MotionEstimate) : MotionEstimate :=
  ⟨a.dx + b.dx, a.dy + b.dy, a.da + b.da⟩

/-- The zero motion estimate (identity motion). -/
def zeroME : MotionEstimate := ⟨0, 0, 0⟩

/-- Running componentwise sums with an explicit accumulator. -/
def cumsumFrom (acc : MotionEstimate) : List MotionEstimate → List MotionEstimate
  | [] => []
  | e :: es => addME acc e :: cumsumFrom (addME acc e) es

/-- `np.cumsum(transforms, axis=0)` (stabiliser.py line 216): entry `i` of
the result is the componentwise sum of entries `0..i` of the input. -/
def cumsum (es : List MotionEstimate) : List MotionEstimate :=
  cumsumFrom zeroME es

/-- Componentwise sum of a list of motion estimates. -/
def sumME (es : List MotionEstimate) : MotionEstimate :=
  es.foldl addME zeroME

/-! ### FeatureSource (stabiliser.py lines 59-112)

The concrete cv2 detectors are external collaborators; their per-frame
outputs are supplied as oracle functions. -/

/-- Python `int()` applied to a rational: truncation toward zero. -/
def truncInt (q : ℚ) : ℤ :=
  if 0 ≤ q then q.floor else q.ceil

/-- `Stabiliser.convert_cv_kps_to_np` (stabiliser.py lines 59-65): each
keypoint coordinate is truncated to `int` and the array is cast to
`float32`, so every resulting coordinate is integer-valued. -/
def convert_cv_kps_to_np (kps : List KeyPoint) : List Pt :=
  kps.map fun kp => ((truncInt kp.pt.1 : ℚ), (truncInt kp.pt.2 : ℚ))

/-- Oracle outputs of the external cv2 feature detectors for a given
grayscale frame. -/
structure CvDetectors where
  goodFeaturesToTrack : Gray → List Pt
  sift : Gray → List KeyPoint
  orb : Gray → List KeyPoint
  akaze : Gray → List KeyPoint

/-- `Stabiliser.get_features` (stabiliser.py lines 67-112).
The SURF branch raises NotImplementedError.  The FAST, MSER and BRISK
branches are unreachable: they sit below the `Features.KAZE` comparison,
and `utils.Features` has no `KAZE` member, so evaluating that `elif`
raises AttributeError first.  GOOD_FEATURES returns the cv2 point array
directly; the keypoint-based detectors go through
`convert_cv_kps_to_np`. -/
def get_features (d : CvDetectors) (features : Features) (gray : Gray) :
    Except PyError (List Pt) :=
  match features with
  | .GOOD_FEATURES => .ok (d.goodFeaturesToTrack gray)
  | .SURF => .error .notImplementedError
  | .SIFT => .ok (convert_cv_kps_to_np (d.sift gray))
  | .ORB => .ok (convert_cv_kps_to_np (d.orb gray))
  | .AKAZE => .ok (convert_cv_kps_to_np (d.akaze gray))
  | .FAST => .error .attributeError
  | .MSER => .error .attributeError
  | .BRISK => .error .attributeError

/-! ### MotionEstimator (stabiliser.py lines 114-136 and 175-208) -/

/-- Oracle outputs of the external SIFT detector and FLANN matcher used by
`extract_sift_features`; descriptors are absorbed into the matcher. -/
structure SiftOracle where
  detect : Gray → List KeyPoint
  knnMatch : Gray → Gray → List (DMatch × DMatch)

/-- `Stabiliser.extract_sift_features` (stabiliser.py lines 114-136):
detect keypoints in both images, `knnMatch` with k = 2, and keep a match
whose best distance is below 0.7 times its second-best distance
(Lowe ratio test). -/
def extract_sift_features (o : SiftOracle) (img1 img2 : Gray) :
    List DMatch × List KeyPoint × List KeyPoint :=
  let kp1 := o.detect img1
  let kp2 := o.detect img2
  let knn := o.knnMatch img1 img2
  let good :=
    (knn.filter fun mn => decide (mn.1.distance < 7 / 10 * mn.2.distance)).map
      Prod.fst
  (good, kp1, kp2)

/-- `prev_pts` of the homography branch (stabiliser.py line 178):
`kp1[m.queryIdx].pt` for each good match (the FLANN contract keeps the
indices in range; out-of-range indexing is modelled by a default). -/
def homography_prev_pts (good : List DMatch) (kp1 : List KeyPoint) : List Pt :=
  good.map fun m => (kp1.getD m.queryIdx ⟨(0, 0)⟩).pt

/-- `curr_pts` of the homography branch (stabiliser.py line 179):
`kp2[m.trainIdx].pt` for each good match. -/
def homography_curr_pts (good : List DMatch) (kp2 : List KeyPoint) : List Pt :=
  good.map fun m => (kp2.getD m.trainIdx ⟨(0, 0)⟩).pt

/-- Valid-point filtering (stabiliser.py lines 193-195):
`idx = np.where(status == 1)`, then `pts[idx]`. -/
def filter_valid (pts : List Pt) (status : List Bool) : List Pt :=
  ((pts.zip status).filter fun ps => ps.2).map Prod.fst

/-- All external cv2/numpy calls made per frame pair, as oracles:
the optical-flow tracker, the two transform solvers (each returning
`none` when the call yields no matrix, i.e. Python `None`), and
`np.arctan2` (whose numeric value is irrelevant to the claims below). -/
structure CvOracles where
  detectors : CvDetectors
  siftFlann : SiftOracle
  calcOpticalFlowPyrLK : Gray → Gray → List Pt → List Pt × List Bool
  findHomography : List Pt → List Pt → Option Mat2x3q
  estimateRigidTransform : List Pt → List Pt → Option Mat2x3q
  arctan2 : ℚ → ℚ → ℚ

/-- One pass-1 frame-pair step (stabiliser.py lines 175-208): acquire the
point arrays for the configured mode, `assert prev_pts.shape ==
curr_pts.shape`, then in optical-flow mode filter by tracking status and
fit a rigid transform; finally read `m[0, 2]`, `m[1, 2]` and
`arctan2(m[1, 0], m[0, 0])`.  Indexing a solver result that is Python
`None` raises a TypeError, modelled as `.error .typeError`. -/
def motion_step (o : CvOracles) (mode : Modes) (features : Features)
    (prev_gray curr_gray : Gray) : Except PyError MotionEstimate :=
  match mode with
  | .HOMOGRAPHY =>
    let gk := extract_sift_features o.siftFlann prev_gray curr_gray
    let prev_pts := homography_prev_pts gk.1 gk.2.1
    let curr_pts := homography_curr_pts gk.1 gk.2.2
    let m := o.findHomography prev_pts curr_pts
    if prev_pts.length = curr_pts.length then
      match m with
      | none => .error .typeError
      | some m => .ok ⟨m.m02, m.m12, o.arctan2 m.m10 m.m00⟩
    else
      .error .assertionError
  | .OPTICAL_FLOW =>
    match get_features o.detectors features prev_gray with
    | .error e => .error e
    | .ok prev_pts =>
      let cs := o.calcOpticalFlowPyrLK prev_gray curr_gray prev_pts
      if prev_pts.length = cs.1.length then
        let prev_f := filter_valid prev_pts cs.2
        let curr_f := filter_valid cs.1 cs.2
        match o.estimateRigidTransform prev_f curr_f with
        | none => .error .typeError
        | some m => .ok ⟨m.m02, m.m12, o.arctan2 m.m10 m.m00⟩
      else
        .error .assertionError

/-! ### StabilisationPipeline pass 1 (stabiliser.py lines 157-213) -/

/-- The pass-1 loop `for i in range(n_frames - 2)` (stabiliser.py lines
166-213): read the next frame (break out of the loop when the read
fails), run the frame-pair step, collect one motion estimate per
completed iteration; an exception in a step aborts the run. -/
def pass1_loop (o : CvOracles) (mode : Modes) (features : Features) :
    Nat → Gray → List Gray → Except PyError (List MotionEstimate)
  | 0, _, _ => .ok []
  | _ + 1, _, [] => .ok []
  | k + 1, prev, curr :: rest =>
    match motion_step o mode features prev curr with
    | .error e => .error e
    | .ok est =>
      match pass1_loop o mode features k curr rest with
      | .error e => .error e
      | .ok ests => .ok (est :: ests)

/-- Pass 1 of `Stabiliser.stabilise` (stabiliser.py lines 157-213): the
first frame is read before the loop (its read flag is ignored; an empty
stream makes `cvtColor(None, ...)` raise), then the loop runs
`n_frames - 2` iterations.  The result lists the motion estimates
actually computed, one per completed iteration. -/
def pass1 (o : CvOracles) (mode : Modes) (features : Features)
    (n_frames : Nat) (frames : List Gray) : Except PyError (List MotionEstimate) :=
  match frames with
  | [] => .error .typeError
  | prev :: rest => pass1_loop o mode features (n_frames - 2) prev rest

/-! ### FrameCompositor and pass 2 (stabiliser.py lines 51-57, 231-266) -/

/-- Frame dimensions (rows = height, columns = width); pixel contents are
irrelevant to the claims below. -/
structure FrameDims where
  h : Nat
  w : Nat
  deriving DecidableEq, Repr

/-- A Python number as passed to the cv2 bindings: the runtime type tag
(int versus float) matters to those bindings. -/
inductive PyNum where
  | int (n : ℤ)
  | float (q : ℚ)
  deriving DecidableEq, Repr

/-- The rational value of a Python number. -/
def PyNum.toQ : PyNum → ℚ
  | .int n => (n : ℚ)
  | .float q => q

/-- Python 3 `/`: true division, always returning a float. -/
def pyDiv (a b : PyNum) : PyNum :=
  .float (a.toQ / b.toQ)

/-- The `cv2.resize` binding contract: `dsize` must be a pair of Python
ints; a float entry is rejected with a type error even when its value is
integral. -/
def cv2_resize (dsize : PyNum × PyNum) : Except PyError FrameDims :=
  match dsize with
  | (.int w2, .int h2) => .ok ⟨h2.toNat, w2.toNat⟩
  | _ => .error .typeError

/-- `cv2.warpAffine(frame, m, (w, h))` at the dimension level: the output
frame has the requested size (stabiliser.py line 252). -/
def warpAffine_dims (w h : Nat) : FrameDims :=
  ⟨h, w⟩

/-- `Stabiliser.fix_border` (stabiliser.py lines 51-57) at the dimension
level: the 4 percent zoom warps back into `(s[1], s[0])`, the input
dimensions. -/
def fix_border_dims (frame : FrameDims) : FrameDims :=
  ⟨frame.h, frame.w⟩

/-- The output-frame composition (stabiliser.py lines 258-262):
`cv2.hconcat` of two equal-height frames, then, when the combined width
exceeds 1920, `cv2.resize` with `(shape[1] / 2, shape[0] / 2)` — a pair
of Python-3 true-division floats. -/
def compose (frame frame_stabilized : FrameDims) : Except PyError FrameDims :=
  if frame.h = frame_stabilized.h then
    let frame_out : FrameDims := ⟨frame.h, frame.w + frame_stabilized.w⟩
    if 1920 < frame_out.w then
      cv2_resize (pyDiv (.int frame_out.w) (.int 2), pyDiv (.int frame_out.h) (.int 2))
    else
      .ok frame_out
  else
    .error .typeError

/-- The pass-2 loop `for i in range(n_frames - 2)` (stabiliser.py lines
231-266): read a frame (break when the read fails, with `avail` frames
available), warp it with the reconstructed matrix, fix the border,
compose the side-by-side frame and write it.  Returns the number of
frames written; an exception in `compose` aborts the run. -/
def pass2_loop (w h : Nat) : Nat → Nat → Except PyError Nat
  | 0, _ => .ok 0
  | _ + 1, 0 => .ok 0
  | k + 1, avail + 1 =>
    let frame : FrameDims := ⟨h, w⟩
    let frame_stabilized := fix_border_dims (warpAffine_dims w h)
    match compose frame frame_stabilized with
    | .error e => .error e
    | .ok _ => (pass2_loop w h k avail).map (· + 1)

/-- Pass 2 of `Stabiliser.stabilise` at the frame-count level: the loop
runs `n_frames - 2` iterations over a stream with `avail` readable
frames. -/
def pass2 (w h n_frames avail : Nat) : Except PyError Nat :=
  pass2_loop w h (n_frames - 2) avail

/-! ### Stabiliser object state (stabiliser.py lines 14-29) -/

/-- The attribute state of a `Stabiliser` object.  `cap` and `out` carry
`none` while the corresponding attribute has only been annotated, never
assigned (as in `__init__`); accessing such an attribute raises
AttributeError. -/
structure Stabiliser where
  mode : Modes
  radius : Nat
  features : Features
  feature_detection_times : List ℚ
  feature_detection_kp_counts : List Nat
  cap : Option Unit
  out : Option Unit
  deriving DecidableEq, Repr

/-- `Stabiliser.__init__` (stabiliser.py lines 14-22): plain attribute
assignments; the `features` value is stored without any validation, and
`cap`/`out` are only annotated. -/
def Stabiliser.init (mode : Modes) (radius : Nat) (features : Features) :
    Stabiliser :=
  { mode := mode
    radius := radius
    features := features
    feature_detection_times := []
    feature_detection_kp_counts := []
    cap := none
    out := none }

/-- `statistics.mean`: raises StatisticsError on empty data. -/
def statistics_mean (xs : List ℚ) : Except PyError ℚ :=
  match xs with
  | [] => .error .statisticsError
  | _ => .ok (xs.sum / (xs.length : ℚ))

/-- `Stabiliser.__del__` (stabiliser.py lines 24-29): log the mean feature
detection time and keypoint count, then release `cap` and `out`.  The
first failing operation raises. -/
def Stabiliser.del (s : Stabiliser) : Except PyError Unit :=
  match statistics_mean s.feature_detection_times with
  | .error e => .error e
  | .ok _ =>
    match statistics_mean (s.feature_detection_kp_counts.map fun k => (k : ℚ)) with
    | .error e => .error e
    | .ok _ =>
      match s.cap with
      | none => .error .attributeError
      | some _ =>
        match s.out with
        | none => .error .attributeError
        | some _ => .ok ()

/-! ### CorrectionSynthesizer over the reals (stabiliser.py lines 200-205
and 243-249) -/

/-- A 2x3 matrix over the reals, for the trigonometric claims. -/
structure Mat2x3R where
  m00 : ℝ
  m01 : ℝ
  m02 : ℝ
  m10 : ℝ
  m11 : ℝ
  m12 : ℝ

/-- Matrix reconstruction (stabiliser.py lines 243-249): row 0 is
`[cos da, -sin da, dx]`, row 1 is `[sin da, cos da, dy]`. -/
noncomputable def toAffineMatrix (dx dy da : ℝ) : Mat2x3R :=
  { m00 := Real.cos da
    m01 := -Real.sin da
    m02 := dx
    m10 := Real.sin da
    m11 := Real.cos da
    m12 := dy }

/-- `np.arctan2 y x`: the angle of the point `(x, y)`, in `(-π, π]`. -/
noncomputable def atan2 (y x : ℝ) : ℝ :=
  Complex.arg ⟨x, y⟩

/-- The motion extraction of stabiliser.py lines 200-205:
`(m[0, 2], m[1, 2], arctan2(m[1, 0], m[0, 0]))`. -/
noncomputable def extract_motion (m : Mat2x3R) : ℝ × ℝ × ℝ :=
  (m.m02, m.m12, atan2 m.m10 m.m00)

/-! ### Concrete oracle instantiations for closed evaluations -/

/-- Modelled from the spec: the external rigid solver
(`cv2.estimateRigidTransform`, not part of this repository) yields no
matrix when fewer than 3 valid correspondences remain ("too few valid
point correspondences (e.g. < 3) for motion estimation to be
well-posed"); on well-posed inputs it returns some matrix, here an
identity-translation matrix since its entries are irrelevant to the
frame-count and error-path claims. -/
def specRigidSolver : List Pt → List Pt → Option Mat2x3q :=
  fun p _ => if p.length < 3 then none else some ⟨1, 0, 0, 0, 1, 0⟩

/-- A concrete oracle instantiation: three well-spread corners, a tracker
returning one output point per input point with all-valid status, and the
spec-modelled solvers. -/
def demoOracles : CvOracles :=
  { detectors :=
      { goodFeaturesToTrack := fun _ => [(0, 0), (1, 0), (0, 1)]
        sift := fun _ => []
        orb := fun _ => []
        akaze := fun _ => [] }
    siftFlann := { detect := fun _ => [], knnMatch := fun _ _ => [] }
    calcOpticalFlowPyrLK := fun _ _ pts => (pts, List.replicate pts.length true)
    findHomography := fun p _ => if p.length < 4 then none else some ⟨1, 0, 0, 0, 1, 0⟩
    estimateRigidTransform := specRigidSolver
    arctan2 := fun _ _ => 0 }

/-- Oracles whose detector finds exactly two corners, both tracked
successfully, exercising the degenerate-correspondence path; the rigid
solver is left as a parameter. -/
def twoPointOracles (solver : List Pt → List Pt → Option Mat2x3q) : CvOracles :=
  { detectors :=
      { goodFeaturesToTrack := fun _ => [(0, 0), (9, 0)]
        sift := fun _ => []
        orb := fun _ => []
        akaze := fun _ => [] }
    siftFlann := { detect := fun _ => [], knnMatch := fun _ _ => [] }
    calcOpticalFlowPyrLK := fun _ _ pts => (pts, List.replicate pts.length true)
    findHomography := fun _ _ => none
    estimateRigidTransform := solver
    arctan2 := fun _ _ => 0 }

/-- Detectors whose SIFT backend reports one keypoint with fractional
coordinates (3/2, 5/2). -/
def fracDetectors : CvDetectors :=
  { goodFeaturesToTrack := fun _ => []
    sift := fun _ => [⟨(3 / 2, 5 / 2)⟩]
    orb := fun _ => []
    akaze := fun _ => [] }

/-! ## Helper lemmas -/

theorem getD_replicate {v d : ℚ} {n i : Nat} (h : i < n) :
    (List.replicate n v).getD i d = v := by
  rw [List.getD_eq_getElem _ _ (by simpa using h)]
  exact List.getElem_replicate ..

theorem sum_map_const (l : List Nat) (c : ℚ) :
    (l.map fun _ => c).sum = l.length * c := by
  induction l with
  | nil => simp
  | cons a l ih =>
    simp only [List.map_cons, List.sum_cons, ih, List.length_cons]
    push_cast
    ring

theorem getLastD_replicate (v : ℚ) : ∀ (m : Nat) (d : ℚ),
    (List.replicate (m + 1) v).getLastD d = v := by
  intro m
  induction m with
  | zero => intro d; simp
  | succ m ih =>
    intro d
    rw [List.replicate_succ, List.getLastD_cons]
    exact ih v

theorem edgePad_replicate (r n : Nat) (v : ℚ) (hn : 1 ≤ n) :
    edgePad r (List.replicate n v) = List.replicate (n + 2 * r) v := by
  obtain ⟨m, rfl⟩ : ∃ m, n = m + 1 := ⟨n - 1, by omega⟩
  unfold edgePad
  rw [getLastD_replicate v m 0]
  have hh : (List.replicate (m + 1) v).headD 0 = v := by
    rw [List.replicate_succ]; rfl
  rw [hh, List.append_assoc, ← List.replicate_add, ← List.replicate_add]
  have : r + (m + 1 + r) = m + 1 + 2 * r := by omega
  rw [this]

theorem conv_window_sum (N M t : Nat) (v w : ℚ) (h1 : M - 1 ≤ t) (h2 : t < N) :
    ((List.range M).map fun j =>
      if j ≤ t then (List.replicate N v).getD (t - j) 0 * (List.replicate M w).getD j 0
      else 0).sum = M * (v * w) := by
  have hcong : ((List.range M).map fun j =>
      if j ≤ t then (List.replicate N v).getD (t - j) 0 * (List.replicate M w).getD j 0
      else 0) = (List.range M).map fun _ => v * w := by
    apply List.map_congr_left
    intro j hj
    rw [List.mem_range] at hj
    rw [if_pos (by omega), getD_replicate (show t - j < N by omega), getD_replicate hj]
  rw [hcong, sum_map_const, List.length_range]

theorem moving_average_const (r n : Nat) (v : ℚ) (hr : 1 ≤ r) (hn : 1 ≤ n) :
    moving_average r (List.replicate n v) = List.replicate n v := by
  unfold moving_average
  simp only []
  rw [edgePad_replicate r n v hn]
  unfold npSliceNegEnd
  rw [if_neg (by omega)]
  unfold convSame
  have hlenf : (List.replicate (2 * r + 1) ((1 : ℚ) / (2 * r + 1 : Nat))).length
      = 2 * r + 1 := List.length_replicate ..
  have hlena : (List.replicate (n + 2 * r) v).length = n + 2 * r :=
    List.length_replicate ..
  rw [hlena, hlenf]
  have hmin : (min (n + 2 * r) (2 * r + 1) - 1) / 2 = r := by omega
  have hmax : max (n + 2 * r) (2 * r + 1) = n + 2 * r := by omega
  rw [hmin, hmax]
  have hlenFull :
      (convFull (List.replicate (n + 2 * r) v)
        (List.replicate (2 * r + 1) ((1 : ℚ) / (2 * r + 1 : Nat)))).length
      = n + 4 * r := by
    unfold convFull
    rw [List.length_map, List.length_range, hlena, hlenf]
    omega
  apply List.ext_getElem
  · simp only [List.length_drop, List.length_take, List.length_drop, hlenFull,
      List.length_replicate]
    omega
  · intro i hi1 hi2
    rw [List.getElem_drop, List.getElem_take, List.getElem_take, List.getElem_drop,
      List.getElem_replicate]
    have hidx : i < n := by simpa using hi2
    unfold convFull
    rw [List.getElem_map, List.getElem_range, hlenf]
    rw [conv_window_sum (n + 2 * r) (2 * r + 1) _ v _ (by omega) (by omega)]
    have hMne : ((2 * r + 1 : Nat) : ℚ) ≠ 0 := by
      exact_mod_cast Nat.succ_ne_zero (2 * r)
    rw [mul_comm v (1 / ((2 * r + 1 : Nat) : ℚ)), ← mul_assoc, mul_one_div,
      div_self hMne, one_mul]

theorem zipME_replicate (n : Nat) (x y z : ℚ) :
    zipME (List.replicate n x) (List.replicate n y) (List.replicate n z) =
      List.replicate n ⟨x, y, z⟩ := by
  induction n with
  | zero => rfl
  | succ n ih => simp only [List.replicate_succ, zipME, ih]

theorem length_cumsumFrom (es : List MotionEstimate) :
    ∀ acc, (cumsumFrom acc es).length = es.length := by
  induction es with
  | nil => intro acc; rfl
  | cons e es ih => intro acc; simp only [cumsumFrom, List.length_cons, ih]

theorem getD_cumsumFrom (es : List MotionEstimate) :
    ∀ (acc : MotionEstimate) (i : Nat), i < es.length →
      (cumsumFrom acc es).getD i zeroME = (es.take (i + 1)).foldl addME acc := by
  induction es with
  | nil => intro acc i h; simp at h
  | cons e es ih =>
    intro acc i h
    cases i with
    | zero => simp [cumsumFrom]
    | succ i =>
      simp only [cumsumFrom, List.getD_cons_succ, List.take_succ_cons, List.foldl_cons]
      exact ih (addME acc e) i (by simpa using h)

/-! ## Claim C1 -/

/-- C1 counterexample: the claim fails at radius 0.  The Python slice
`curve_smoothed[0:-0]` is empty, so `moving_average` maps the constant
one-element channel `[5]` to `[]`, and `smooth` on the corresponding
one-row constant trajectory fails (numpy cannot assign the empty result
back into a length-1 column) instead of returning the input. -/
theorem smoothing_constant_radius_zero_cex :
    moving_average 0 [(5 : ℚ)] = [] ∧
    moving_average 0 [(5 : ℚ)] ≠ [(5 : ℚ)] ∧
    smooth 0 [⟨5, 5, 5⟩] = none := by
  refine ⟨rfl, by simp [moving_average, npSliceNegEnd], ?_⟩
  simp [smooth, moving_average, npSliceNegEnd]

/-- C1 (amended): for every constant trajectory and every smoothing
radius at least 1, smoothing returns the input unchanged (in particular
the output has the input's length); the radius 0 case is excluded, where
the slice `[0:-0]` empties the channel. -/
theorem smoothing_constant_is_identity (r n : Nat) (e : MotionEstimate)
    (hr : 1 ≤ r) (hn : 1 ≤ n) :
    smooth r (List.replicate n e) = some (List.replicate n e) := by
  unfold smooth
  simp only [List.map_replicate]
  rw [moving_average_const r n e.dx hr hn, moving_average_const r n e.dy hr hn,
    moving_average_const r n e.da hr hn]
  rw [if_pos ⟨by simp, by simp, by simp⟩]
  rw [zipME_replicate]

/-- C1 witness: the amended theorem applied at radius 1 and the constant
two-row trajectory with rows (4, 5, 6). -/
theorem smoothing_constant_is_identity_witness :
    (1 : Nat) ≤ 1 ∧ (1 : Nat) ≤ 2 ∧
      smooth 1 (List.replicate 2 ⟨4, 5, 6⟩) = some (List.replicate 2 ⟨4, 5, 6⟩) :=
  ⟨le_refl 1, by omega, smoothing_constant_is_identity 1 2 ⟨4, 5, 6⟩ (le_refl 1) (by omega)⟩

/-! ## Claim C2 -/

/-- C2: for every sequence of raw motion estimates, the accumulated
trajectory `np.cumsum` has the same length, and its entry `i` is the
componentwise sum of the estimates `0..i` inclusive. -/
theorem trajectory_cumsum_is_inclusive_sums (es : List MotionEstimate) (i : Nat)
    (h : i < es.length) :
    (cumsum es).length = es.length ∧
    (cumsum es).getD i zeroME = sumME (es.take (i + 1)) :=
  ⟨length_cumsumFrom es zeroME, getD_cumsumFrom es zeroME i h⟩

/-- C2 witness: the theorem applied at index 1 of a concrete two-element
estimate sequence. -/
theorem trajectory_cumsum_is_inclusive_sums_witness :
    (1 < ([⟨1, 0, 0⟩, ⟨2, 1, 1⟩] : List MotionEstimate).length) ∧
    ((cumsum [⟨1, 0, 0⟩, ⟨2, 1, 1⟩]).length = 2 ∧
      (cumsum [⟨1, 0, 0⟩, ⟨2, 1, 1⟩]).getD 1 zeroME =
        sumME ([⟨1, 0, 0⟩, ⟨2, 1, 1⟩].take 2)) :=
  ⟨by simp, trajectory_cumsum_is_inclusive_sums [⟨1, 0, 0⟩, ⟨2, 1, 1⟩] 1 (by simp)⟩

/-! ## Claim C3 -/

/-- C3 (code bug): for a fully readable 10-frame video both passes loop
over `range(n_frames - 2)`, so pass 1 computes 8 raw motion estimates and
pass 2 writes 8 composite frames, one fewer than the n_frames - 1 = 9 the
claim (and the code's own comment and the n_frames - 1 rows preallocated
for `transforms`) state. -/
theorem pass_counts_are_n_minus_2 :
    (pass1 demoOracles .OPTICAL_FLOW .GOOD_FEATURES 10 (List.range 10)).map List.length
      = .ok 8 ∧
    (pass1 demoOracles .OPTICAL_FLOW .GOOD_FEATURES 10 (List.range 10)).map List.length
      ≠ .ok 9 ∧
    pass2 640 480 10 10 = .ok 8 ∧
    pass2 640 480 10 10 ≠ .ok 9 := by
  refine ⟨?_, ?_, ?_, ?_⟩ <;> with_unfolding_all decide

/-! ## Claim C4 -/

/-- C4 (code bug): when only two valid correspondences remain, any rigid
solver honouring the well-posedness contract (no matrix below 3
correspondences) makes the pass-1 step raise a TypeError — `m[0, 2]` is
read from a result that is Python `None` — instead of returning the
identity motion estimate and continuing. -/
theorem degenerate_pair_raises_not_identity
    (solver : List Pt → List Pt → Option Mat2x3q)
    (hsolver : ∀ p c, p.length < 3 → solver p c = none) :
    motion_step (twoPointOracles solver) .OPTICAL_FLOW .GOOD_FEATURES 0 1
      = .error .typeError ∧
    motion_step (twoPointOracles solver) .OPTICAL_FLOW .GOOD_FEATURES 0 1
      ≠ .ok zeroME := by
  have hstep : motion_step (twoPointOracles solver) .OPTICAL_FLOW .GOOD_FEATURES 0 1
      = .error .typeError := by
    unfold motion_step get_features twoPointOracles
    simp only []
    rw [hsolver _ _ (by with_unfolding_all decide)]
    simp
  exact ⟨hstep, by rw [hstep]; exact fun h => Except.noConfusion h⟩

/-- C4 witness: the hypotheses discharged with the spec-modelled solver. -/
theorem degenerate_pair_raises_not_identity_witness :
    (∀ p c, p.length < 3 → specRigidSolver p c = none) ∧
    motion_step (twoPointOracles specRigidSolver) .OPTICAL_FLOW .GOOD_FEATURES 0 1
      = .error .typeError := by
  have hc : ∀ p c, p.length < 3 → specRigidSolver p c = none := by
    intro p c h
    unfold specRigidSolver
    rw [if_pos h]
  exact ⟨hc, (degenerate_pair_raises_not_identity specRigidSolver hc).1⟩

/-! ## Claim C5 -/

/-- C5 counterexample: at dAngle = 2π the reconstruction-extraction round
trip returns angle 0, which differs from 2π by a full turn, not by a
floating-point tolerance; so the round trip does not hold for every
triple. -/
theorem affine_round_trip_cex :
    extract_motion (toAffineMatrix 0 0 (2 * Real.pi)) ≠ ((0 : ℝ), (0 : ℝ), 2 * Real.pi) := by
  intro h
  have h3 := congrArg (fun t : ℝ × ℝ × ℝ => t.2.2) h
  simp only [extract_motion, toAffineMatrix, atan2] at h3
  rw [Real.cos_two_pi, Real.sin_two_pi] at h3
  have hone : (⟨(1 : ℝ), (0 : ℝ)⟩ : ℂ) = 1 := by
    rw [Complex.mk_eq_add_mul_I]
    simp
  rw [hone, Complex.arg_one] at h3
  have hne : 2 * Real.pi ≠ 0 := by
    exact mul_ne_zero two_ne_zero Real.pi_ne_zero
  exact hne h3.symm

/-- C5 (amended): for every dx, dy and every dAngle in the principal
range (-π, π], building the 2x3 affine matrix and extracting
`(m[0,2], m[1,2], arctan2(m[1,0], m[0,0]))` returns the original triple
exactly; outside that range the extracted angle is the representative
modulo 2π, as the counterexample at 2π shows. -/
theorem affine_round_trip (dx dy da : ℝ) (h1 : -Real.pi < da) (h2 : da ≤ Real.pi) :
    extract_motion (toAffineMatrix dx dy da) = (dx, dy, da) := by
  simp only [extract_motion, toAffineMatrix, atan2, Prod.mk.injEq]
  refine ⟨trivial, trivial, ?_⟩
  rw [Complex.mk_eq_add_mul_I, Complex.ofReal_cos, Complex.ofReal_sin]
  exact Complex.arg_cos_add_sin_mul_I ⟨h1, h2⟩

/-- C5 witness: the amended theorem applied at (1, 2, 0). -/
theorem affine_round_trip_witness :
    -Real.pi < 0 ∧ (0 : ℝ) ≤ Real.pi ∧
      extract_motion (toAffineMatrix 1 2 0) = ((1 : ℝ), (2 : ℝ), (0 : ℝ)) :=
  ⟨neg_lt_zero.mpr Real.pi_pos, Real.pi_pos.le,
    affine_round_trip 1 2 0 (neg_lt_zero.mpr Real.pi_pos) Real.pi_pos.le⟩

/-! ## Claim C6 -/

/-- C6 counterexample: constructing a Stabiliser configured with the
unimplemented SURF backend completes normally — `__init__` merely stores
the attributes, validating nothing — so no error is reported at
configuration time; the NotImplementedError sits inside `get_features`,
which only runs once frame processing is underway. -/
theorem surf_config_time_cex :
    Stabiliser.init .OPTICAL_FLOW 50 .SURF =
      { mode := .OPTICAL_FLOW
        radius := 50
        features := .SURF
        feature_detection_times := []
        feature_detection_kp_counts := []
        cap := none
        out := none } ∧
    get_features demoOracles.detectors .SURF 0 = .error .notImplementedError :=
  ⟨rfl, rfl⟩

/-- C6 (amended): with the SURF backend the pipeline fails fatally, but
during pass-1 frame processing (at the first `get_features` call of the
optical-flow path), not at configuration time: construction succeeds and
stores the backend, and the pass-1 run then aborts with
NotImplementedError on the first frame pair. -/
theorem surf_fails_at_first_detection :
    (Stabiliser.init .OPTICAL_FLOW 50 .SURF).features = .SURF ∧
    pass1 demoOracles .OPTICAL_FLOW .SURF 10 (List.range 10)
      = .error .notImplementedError := by
  exact ⟨rfl, by with_unfolding_all decide⟩

/-! ## Claim C7 -/

/-- C7 (code bug): composing two equal-height frames concatenates them to
doubled width (640 wide frames give a 1280-wide composite, under the 1920
threshold), but when the composite exceeds 1920 — here 1280-wide inputs
giving 2560 — the resize branch passes the Python-3 true-division floats
(2560 / 2, 720 / 2) as the cv2.resize dimensions, which the binding
rejects, so the code raises a TypeError instead of returning the
half-sized concatenation. -/
theorem compose_resize_branch_raises :
    compose ⟨480, 640⟩ ⟨480, 640⟩ = .ok ⟨480, 1280⟩ ∧
    compose ⟨720, 1280⟩ ⟨720, 1280⟩ = .error .typeError ∧
    compose ⟨720, 1280⟩ ⟨720, 1280⟩ ≠ .ok ⟨360, 1280⟩ := by
  refine ⟨by norm_num [compose], by norm_num [compose, cv2_resize, pyDiv], ?_⟩
  norm_num [compose, cv2_resize, pyDiv]
  exact fun h => Except.noConfusion h

/-! ## Claim C8 -/

/-- C8: the sanity assertion `prev_pts.shape == curr_pts.shape` never
fails: in homography mode both point arrays are mapped from the same
good-match list, so their lengths agree for every oracle; in optical-flow
mode they agree whenever the tracker honours its one-output-point-per-
input-point contract.  Hence `motion_step` never raises the assertion
error in either mode. -/
theorem shape_assert_never_fails :
    (∀ (o : CvOracles) (f : Features) (g1 g2 : Gray),
        motion_step o .HOMOGRAPHY f g1 g2 ≠ .error .assertionError) ∧
    (∀ (o : CvOracles) (f : Features) (g1 g2 : Gray),
        (∀ a b pts, ((o.calcOpticalFlowPyrLK a b pts).1).length = pts.length) →
        motion_step o .OPTICAL_FLOW f g1 g2 ≠ .error .assertionError) := by
  constructor
  · intro o f g1 g2
    unfold motion_step
    simp only []
    rw [if_pos (by simp [homography_prev_pts, homography_curr_pts])]
    split <;> simp
  · intro o f g1 g2 hflow
    unfold motion_step
    cases f <;> simp only [get_features] <;>
      try (intro h; exact PyError.noConfusion (Except.error.inj h))
    all_goals
      rw [if_pos (hflow g1 g2 _).symm]
    all_goals
      split <;> simp

/-- C8 witness: the optical-flow half applied to the concrete oracles,
whose tracker returns exactly one output point per input point. -/
theorem shape_assert_never_fails_witness :
    motion_step demoOracles .OPTICAL_FLOW .GOOD_FEATURES 0 1 ≠ .error .assertionError :=
  shape_assert_never_fails.2 demoOracles .GOOD_FEATURES 0 1 fun _ _ _ => by
    simp [demoOracles]

/-! ## Claim C9 -/

/-- C9: finalising a Stabiliser on which `stabilise` never ran raises:
`feature_detection_times` is still the empty list `__init__` created, so
the destructor's `mean` call raises StatisticsError — and the `cap` and
`out` attributes were never assigned (they are still in their
annotated-only state). -/
theorem del_after_init_raises (mode : Modes) (radius : Nat) (features : Features) :
    (Stabiliser.init mode radius features).feature_detection_times = [] ∧
    (Stabiliser.init mode radius features).cap = none ∧
    (Stabiliser.init mode radius features).out = none ∧
    Stabiliser.del (Stabiliser.init mode radius features) = .error .statisticsError :=
  ⟨rfl, rfl, rfl, rfl⟩

/-! ## Claim C10 -/

/-- C10: for every feature backend other than GOOD_FEATURES, every point
`get_features` returns has integer-valued coordinates (denominator 1),
because `convert_cv_kps_to_np` truncates each keypoint coordinate to int
before the float32 cast; concretely the keypoint (3/2, -3/2) becomes
(1, -1), its fractional parts discarded. -/
theorem non_good_features_points_integral :
    (∀ (d : CvDetectors) (f : Features) (g : Gray) (pts : List Pt),
        f ≠ .GOOD_FEATURES → get_features d f g = .ok pts →
        ∀ p ∈ pts, p.1.den = 1 ∧ p.2.den = 1) ∧
    convert_cv_kps_to_np [⟨(3 / 2, -(3 / 2))⟩] = [((1 : ℚ), (-1 : ℚ))] := by
  constructor
  · intro d f g pts hne hok p hp
    have hconv : ∀ (kps : List KeyPoint), p ∈ convert_cv_kps_to_np kps →
        p.1.den = 1 ∧ p.2.den = 1 := by
      intro kps hmem
      simp only [convert_cv_kps_to_np, List.mem_map] at hmem
      obtain ⟨kp, -, rfl⟩ := hmem
      exact ⟨Rat.den_intCast _, Rat.den_intCast _⟩
    cases f with
    | GOOD_FEATURES => exact absurd rfl hne
    | SURF => exact absurd hok (by simp [get_features])
    | FAST => exact absurd hok (by simp [get_features])
    | MSER => exact absurd hok (by simp [get_features])
    | BRISK => exact absurd hok (by simp [get_features])
    | SIFT =>
      rw [get_features, Except.ok.injEq] at hok
      exact hconv _ (hok ▸ hp)
    | ORB =>
      rw [get_features, Except.ok.injEq] at hok
      exact hconv _ (hok ▸ hp)
    | AKAZE =>
      rw [get_features, Except.ok.injEq] at hok
      exact hconv _ (hok ▸ hp)
  · with_unfolding_all decide

/-- C10 witness: the theorem applied to the SIFT backend reporting the
fractional keypoint (3/2, 5/2), which `get_features` returns as the
integral point (1, 2). -/
theorem non_good_features_points_integral_witness :
    Features.SIFT ≠ Features.GOOD_FEATURES ∧
    get_features fracDetectors .SIFT 0 = .ok [((1 : ℚ), (2 : ℚ))] ∧
    (((1 : ℚ), (2 : ℚ)) : Pt).1.den = 1 ∧ (((1 : ℚ), (2 : ℚ)) : Pt).2.den = 1 := by
  have hne : Features.SIFT ≠ Features.GOOD_FEATURES := fun h => Features.noConfusion h
  have hgf : get_features fracDetectors .SIFT 0 = .ok [((1 : ℚ), (2 : ℚ))] := by
    with_unfolding_all decide
  exact ⟨hne, hgf,
    non_good_features_points_integral.1 fracDetectors .SIFT 0 _ hne hgf
      ((1 : ℚ), (2 : ℚ)) (by simp)⟩
